import Mathlib

/-!
# Verification of the SSO authentication core

Shallow embedding of the credential-verification and token-issuance engine
of the `sso` repository: the `Auth` service (`Login`, `RegisterNewUser`,
`IsAdmin` in the `auth` package), the token issuer (`NewToken` in the `jwt`
package), the storage sentinel errors (`storage/storage.go`), and idealized
models of the external `bcrypt` library and of the store contract.

Go errors are modelled as an inductive type with a `wrapped` constructor for
`fmt.Errorf("%s: %w", op, err)`, and `errors.Is` as structural unwrapping.
Time is modelled in whole seconds since epoch, passed explicitly where the
Go code calls `time.Now()`. Randomness (the bcrypt salt) is passed
explicitly as a parameter. Logging is a pure side effect and is elided.
-/

namespace SSO

/-- Go error values, as the closed set of sentinels the core manipulates.
`ErrUserNotFound`, `ErrUserExists`, `ErrAppNotFound` are the sentinels of
`storage/storage.go`; `ErrInvalidCredentials` is declared in the `auth`
package; the bcrypt errors model the distinct error values returned by
`golang.org/x/crypto/bcrypt`. `wrapped op e` models
`fmt.Errorf("%s: %w", op, e)`. -/
inductive GoErr where
  | ErrUserNotFound
  | ErrUserExists
  | ErrAppNotFound
  | ErrInvalidCredentials
  | ErrMismatchedHashAndPassword
  | ErrHashTooShort
  | ErrPasswordTooLong
  | ErrInvalidKeyType
  | errOther (msg : String)
  | wrapped (op : String) (inner : GoErr)
  deriving DecidableEq, Repr

/-- Go `errors.Is`: an error matches a target if it equals it or if some
error in its unwrap chain does. `wrapped` is the only wrapper constructor. -/
def errorsIs : GoErr → GoErr → Bool
  | e, target =>
    if e = target then true
    else
      match e with
      | .wrapped _ inner => errorsIs inner target
      | _ => false

/-- Idealized bcrypt hash value: a well-formed hash records the cost, the
random salt and (as an idealization of the one-way digest) the password it
was derived from; `malformed` stands for any byte sequence that is not a
valid bcrypt hash. -/
inductive PassHash where
  | valid (cost : Nat) (salt : Nat) (password : String)
  | malformed
  deriving DecidableEq, Repr

/-- `bcrypt.DefaultCost`, the named cost constant used by the core. -/
def DefaultCost : Nat := 10

/-- Model of `bcrypt.GenerateFromPassword(password, cost)`. The salt is the
randomness drawn inside the call, made explicit as a parameter; bcrypt
rejects passwords longer than 72 bytes with `ErrPasswordTooLong`. -/
def GenerateFromPassword (password : String) (cost : Nat) (salt : Nat) :
    Except GoErr PassHash :=
  if password.length > 72 then .error .ErrPasswordTooLong
  else .ok (.valid cost salt password)

/-- Model of `bcrypt.CompareHashAndPassword(hash, password)`: `none` on
success; a malformed stored hash yields the hash-format error
`ErrHashTooShort`, a well-formed hash of a different password yields
`ErrMismatchedHashAndPassword` — two distinct error values. -/
def CompareHashAndPassword : PassHash → String → Option GoErr
  | .malformed, _ => some .ErrHashTooShort
  | .valid _ _ stored, password =>
      if stored = password then none else some .ErrMismatchedHashAndPassword

/-- Modelled from the spec: the domain models package
(`sso/internal/domain/models`) is not under `src/`; the fields are the ones
the core reads (`user.ID`, `user.Email`, `user.PassHash`) per the spec's
data model. -/
structure User where
  ID : Int
  Email : String
  PassHash : PassHash
  deriving DecidableEq, Repr

/-- Modelled from the spec: the domain models package
(`sso/internal/domain/models`) is not under `src/`; the fields are the ones
the issuer reads (`app.ID`, `app.Secret`) per the spec's data model. -/
structure App where
  ID : Int
  Secret : String
  deriving DecidableEq, Repr

/-- The `Auth` service struct of the `auth` package. The interface-typed
dependencies `UserSaver`, `UserProvider` (two methods) and `AppProvider`
are modelled as function fields; the logger is elided. The field name
`toketTTL` is kept as spelled in the source. -/
structure Auth where
  usrSaver_SaveUser : String → PassHash → Except GoErr Int
  usrProvider_User : String → Except GoErr User
  usrProvider_IsAdmin : Int → Except GoErr Bool
  appProvider_App : Int → Except GoErr App
  toketTTL : Int

/-- `auth.New`: constructs the service, capturing the token TTL once at
construction. -/
def New (usersaver : String → PassHash → Except GoErr Int)
    (userProvider : String → Except GoErr User)
    (isAdminProvider : Int → Except GoErr Bool)
    (appProvider : Int → Except GoErr App)
    (tokenTTL : Int) : Auth :=
  { usrSaver_SaveUser := usersaver
    usrProvider_User := userProvider
    usrProvider_IsAdmin := isAdminProvider
    appProvider_App := appProvider
    toketTTL := tokenTTL }

/-- The `op` constant of `Auth.Login`. -/
def opLogin : String := "auth.Login"

/-- The `op` constant of `Auth.RegisterNewUser`. -/
def opRegisterNewUser : String := "auth.RegisterNewUser"

/-- The value of a Go `(string, error)` return from `Login`. The source's
success path ends at `log.Info("successfully logged in")` and falls off the
end of the function with no `return` statement (a Go compile error, flagged
as an open question in the spec); `missingReturn` embeds that undefined
success path faithfully. -/
inductive LoginRet where
  | ret (token : String) (e : Option GoErr)
  | missingReturn
  deriving DecidableEq, Repr

/-- `Auth.Login(ctx, email, password, appID)` as written in the source:
user lookup (not-found mapped to `ErrInvalidCredentials`, other errors
wrapped as-is), bcrypt comparison (any failure mapped to
`ErrInvalidCredentials`), app lookup (error wrapped as-is), and then the
success path with no return statement. -/
def Auth.Login (a : Auth) (email password : String) (appID : Int) : LoginRet :=
  match a.usrProvider_User email with
  | .error err =>
      if errorsIs err .ErrUserNotFound then
        .ret "" (some (.wrapped opLogin .ErrInvalidCredentials))
      else
        .ret "" (some (.wrapped opLogin err))
  | .ok user =>
      match CompareHashAndPassword user.PassHash password with
      | some _ => .ret "" (some (.wrapped opLogin .ErrInvalidCredentials))
      | none =>
          match a.appProvider_App appID with
          | .error err => .ret "" (some (.wrapped opLogin err))
          | .ok _app => .missingReturn

/-- `Auth.RegisterNewUser(ctx, email, pass)`: hash with
`bcrypt.DefaultCost` (salt passed explicitly as the randomness of the
call), persist via the `UserSaver` dependency, wrap every failure with the
operation name. Returns the Go `(int64, error)` pair. -/
def Auth.RegisterNewUser (a : Auth) (salt : Nat) (email pass : String) :
    Int × Option GoErr :=
  match GenerateFromPassword pass DefaultCost salt with
  | .error err => (0, some (.wrapped opRegisterNewUser err))
  | .ok passHash =>
      match a.usrSaver_SaveUser email passHash with
      | .error err => (0, some (.wrapped opRegisterNewUser err))
      | .ok id => (id, none)

/-- Outcome of a Go call that may panic. -/
inductive GoResult (α : Type) where
  | ok (a : α)
  | err (e : GoErr)
  | panicked (msg : String)
  deriving DecidableEq, Repr

/-- `Auth.IsAdmin(ctx, userID)` as written in the source: the body is
exactly `panic("implement me")`. -/
def Auth.IsAdmin (_a : Auth) (_userID : Int) : GoResult Bool :=
  .panicked "implement me"

/-- A JWT claim value (the claims the issuer sets are ints and strings). -/
inductive ClaimValue where
  | vInt (i : Int)
  | vStr (s : String)
  deriving DecidableEq, Repr

/-- The claims map built by `jwt.NewToken`, as an association list in
assignment order: `uid`, `email`, `exp`, `app_id`, with
`exp = time.Now().Add(duration).Unix()` modelled as `now + duration` in
whole seconds. -/
def newTokenClaims (user : User) (app : App) (duration now : Int) :
    List (String × ClaimValue) :=
  [("uid", .vInt user.ID),
   ("email", .vStr user.Email),
   ("exp", .vInt (now + duration)),
   ("app_id", .vInt app.ID)]

/-- Lookup of a claim by key in a claims list. -/
def lookupClaim (cs : List (String × ClaimValue)) (k : String) :
    Option ClaimValue :=
  (cs.find? (fun p => p.1 = k)).map (fun p => p.2)

/-- A jwt signing method; the source constructs its token with
`jwt.SigningMethodES256` (ECDSA over P-256). -/
inductive SigningMethod where
  | ES256
  deriving DecidableEq, Repr

/-- The dynamic type of the key value handed to `Token.SignedString`. The
source passes `[]byte(app.Secret)`, a byte slice; the ECDSA signer would
require an `*ecdsa.PrivateKey`. -/
inductive SigningKey where
  | bytes (secret : String)
  | ecdsaPrivateKey (key : Nat)
  deriving DecidableEq, Repr

/-- A signed token, modelled as its claims payload together with the key
used to sign it, abstracting the serialization of the external jwt
library. -/
structure SignedToken where
  claims : List (String × ClaimValue)
  key : SigningKey
  deriving DecidableEq, Repr

/-- Model of golang-jwt/v5 `Token.SignedString` for the method the source
uses: the ES256 (ECDSA) signing method accepts only an
`*ecdsa.PrivateKey` and rejects every other key type — a byte slice
included — with `jwt.ErrInvalidKeyType`; with a proper ECDSA private key
it produces the signed token. -/
def signedString (method : SigningMethod)
    (claims : List (String × ClaimValue)) (key : SigningKey) :
    Except GoErr SignedToken :=
  match method, key with
  | .ES256, .ecdsaPrivateKey _ => .ok { claims := claims, key := key }
  | .ES256, .bytes _ => .error .ErrInvalidKeyType

/-- `jwt.NewToken(user, app, duration)` as written in the source: builds
the claims map (`uid`, `email`, `exp`, `app_id`), then calls
`token.SignedString([]byte(app.Secret))` on a `SigningMethodES256` token
and returns `("", err)` when signing fails, the token string otherwise;
`now` makes the `time.Now()` call explicit. -/
def NewToken (user : User) (app : App) (duration now : Int) :
    Except GoErr SignedToken :=
  match signedString .ES256 (newTokenClaims user app duration now)
      (.bytes app.Secret) with
  | .error err => .error err
  | .ok tokenString => .ok tokenString

/-- A stored user record in the persistence model. -/
structure StoredUser where
  ID : Int
  Email : String
  PassHash : PassHash
  deriving DecidableEq, Repr

/-- In-memory state of the store. -/
structure Storage where
  users : List StoredUser
  nextID : Int
  deriving DecidableEq, Repr

/-- Modelled from the spec: the storage adapter implementing the store
contract is not under `src/` (only its sentinel errors in
`storage/storage.go` and the consuming interfaces are). `SaveUser` performs
an atomic insert-if-not-exists on the email key: a duplicate email fails
with `ErrUserExists` and leaves the state unchanged; otherwise the record
is appended and the fresh id returned. -/
def Storage.SaveUser (st : Storage) (email : String) (h : PassHash) :
    Except GoErr Int × Storage :=
  if st.users.any (fun u => u.Email = email) then
    (.error .ErrUserExists, st)
  else
    (.ok st.nextID,
     { users := st.users ++ [⟨st.nextID, email, h⟩], nextID := st.nextID + 1 })

/-- `Auth.RegisterNewUser` run against the modelled store state: the core's
code (hash with `DefaultCost`, persist, wrap failures with the operation
name) composed with `Storage.SaveUser`, threading the state. -/
def registerNewUserSt (st : Storage) (salt : Nat) (email pass : String) :
    (Int × Option GoErr) × Storage :=
  match GenerateFromPassword pass DefaultCost salt with
  | .error err => ((0, some (.wrapped opRegisterNewUser err)), st)
  | .ok passHash =>
      match st.SaveUser email passHash with
      | (.error err, st2) => ((0, some (.wrapped opRegisterNewUser err)), st2)
      | (.ok id, st2) => ((id, none), st2)

/-! ## Concrete instances used by witnesses and counterexamples -/

/-- A registered user with a well-formed stored hash of `"s3cret"`. -/
def aliceUser : User :=
  { ID := 1, Email := "alice@example.com", PassHash := .valid DefaultCost 1 "s3cret" }

/-- A registered user whose stored hash bytes are not a valid bcrypt hash. -/
def bobUser : User :=
  { ID := 2, Email := "bob@example.com", PassHash := .malformed }

/-- A provisioned app. -/
def app7 : App := { ID := 7, Secret := "app-seven-secret" }

/-- A concrete `Auth` instance over a one-user, one-app store: `aliceUser`
under her email, `app7` under id 7, not-found sentinels otherwise. -/
def authEx : Auth :=
  New (fun _ _ => .ok 1)
    (fun email =>
      if email = "alice@example.com" then .ok aliceUser
      else .error .ErrUserNotFound)
    (fun _ => .ok false)
    (fun appID => if appID = 7 then .ok app7 else .error .ErrAppNotFound)
    3600

/-- A concrete `Auth` instance whose only user has a malformed stored
hash. -/
def authMalformed : Auth :=
  New (fun _ _ => .ok 2)
    (fun email =>
      if email = "bob@example.com" then .ok bobUser
      else .error .ErrUserNotFound)
    (fun _ => .ok false)
    (fun appID => if appID = 7 then .ok app7 else .error .ErrAppNotFound)
    3600

/-- The empty store. -/
def emptyStorage : Storage := { users := [], nextID := 1 }

/-- A concrete `Auth` instance whose saver reports the duplicate-email
sentinel on every save, modelling a conflicting insert. -/
def authDup : Auth :=
  New (fun _ _ => .error .ErrUserExists)
    (fun _ => .error .ErrUserNotFound)
    (fun _ => .ok false)
    (fun _ => .error .ErrAppNotFound)
    3600

/-! ## Claims -/

/-- C1: for every stored-user state (any provider functions) and every
(email, password, appID) input, a user lookup reporting not-found and a
password that fails to verify against the stored hash both make `Login`
return the very same error value `wrapped "auth.Login" ErrInvalidCredentials`
— the two failures are indistinguishable by error kind to the caller. -/
theorem login_enumeration_safety (a : Auth) (email password : String)
    (appID : Int) (e : GoErr) (user : User) :
    (a.usrProvider_User email = .error e → errorsIs e .ErrUserNotFound = true →
      a.Login email password appID =
        .ret "" (some (.wrapped opLogin .ErrInvalidCredentials))) ∧
    (a.usrProvider_User email = .ok user →
      CompareHashAndPassword user.PassHash password ≠ none →
      a.Login email password appID =
        .ret "" (some (.wrapped opLogin .ErrInvalidCredentials))) := by
  constructor
  · intro hu hnf
    simp [Auth.Login, hu, hnf]
  · intro hu hcmp
    cases hc : CompareHashAndPassword user.PassHash password with
    | none => exact absurd hc hcmp
    | some err => simp [Auth.Login, hu, hc]

/-- Witness for C1: on the concrete instance `authEx`, a login with an
unregistered email and a login with a registered email but wrong password
return the identical `ErrInvalidCredentials` error. -/
theorem login_enumeration_safety_witness :
    authEx.Login "carol@example.com" "anything" 7 =
      .ret "" (some (.wrapped opLogin .ErrInvalidCredentials)) ∧
    authEx.Login "alice@example.com" "wrong" 7 =
      .ret "" (some (.wrapped opLogin .ErrInvalidCredentials)) :=
  ⟨(login_enumeration_safety authEx "carol@example.com" "anything" 7
      .ErrUserNotFound aliceUser).1 (by rfl) (by decide),
   (login_enumeration_safety authEx "alice@example.com" "wrong" 7
      .ErrUserNotFound aliceUser).2 (by rfl) (by decide)⟩

/-- C2 (code bug): on an input where user lookup, password verification and
app lookup all succeed — `authEx` with Alice's correct credentials and the
existing app 7 — the source's `Login` reaches a success path that has no
return statement and never calls the token issuer; the embedded function
yields `missingReturn`, not a signed token string. -/
theorem login_success_path_missing_return :
    authEx.Login "alice@example.com" "s3cret" 7 = .missingReturn := by
  decide

/-- C4: when the user exists and the password verifies but the app lookup
reports not-found, `Login` fails with the store's app-not-found kind,
detectable through the `auth.Login` wrapping by `errors.Is`, and that kind
is distinct from (and does not match) `ErrInvalidCredentials`. -/
theorem login_app_not_found (a : Auth) (email password : String)
    (appID : Int) (user : User) (e : GoErr) :
    a.usrProvider_User email = .ok user →
    CompareHashAndPassword user.PassHash password = none →
    a.appProvider_App appID = .error e →
    errorsIs e .ErrAppNotFound = true →
    a.Login email password appID = .ret "" (some (.wrapped opLogin e)) ∧
    errorsIs (.wrapped opLogin e) .ErrAppNotFound = true ∧
    (errorsIs e .ErrInvalidCredentials = false →
      errorsIs (.wrapped opLogin e) .ErrInvalidCredentials = false) ∧
    GoErr.ErrAppNotFound ≠ GoErr.ErrInvalidCredentials := by
  intro hu hc ha happ
  refine ⟨?_, ?_, ?_, by decide⟩
  · simp [Auth.Login, hu, hc, ha]
  · unfold errorsIs
    simp [happ]
  · intro hnic
    unfold errorsIs
    simp [hnic]

/-- Witness for C4: on `authEx`, logging in as Alice with the right
password but app id 9 (not provisioned) yields the wrapped
`ErrAppNotFound`, which `errors.Is` distinguishes from
`ErrInvalidCredentials`. -/
theorem login_app_not_found_witness :
    authEx.Login "alice@example.com" "s3cret" 9 =
      .ret "" (some (.wrapped opLogin .ErrAppNotFound)) ∧
    errorsIs (.wrapped opLogin .ErrAppNotFound) .ErrAppNotFound = true ∧
    (errorsIs GoErr.ErrAppNotFound .ErrInvalidCredentials = false →
      errorsIs (.wrapped opLogin .ErrAppNotFound) .ErrInvalidCredentials = false) ∧
    GoErr.ErrAppNotFound ≠ GoErr.ErrInvalidCredentials :=
  login_app_not_found authEx "alice@example.com" "s3cret" 9 aliceUser
    .ErrAppNotFound (by rfl) (by decide) (by rfl) (by decide)

/-- C5: against the modelled store, registering a fresh email succeeds and
appends exactly one record; a second registration of the same email fails
with an error whose kind is the store's duplicate sentinel `ErrUserExists`
(detectable by `errors.Is` through the `auth.RegisterNewUser` wrapping)
and leaves the store state — in particular the first user's record —
unchanged. -/
theorem register_duplicate_email (st : Storage) (salt₁ salt₂ : Nat)
    (email pass₁ pass₂ : String)
    (hfresh : st.users.any (fun u => u.Email = email) = false)
    (hlen : pass₁.length ≤ 72) (hlen₂ : pass₂.length ≤ 72) :
    (registerNewUserSt st salt₁ email pass₁).1 = (st.nextID, none) ∧
    (registerNewUserSt st salt₁ email pass₁).2.users =
      st.users ++ [⟨st.nextID, email, .valid DefaultCost salt₁ pass₁⟩] ∧
    registerNewUserSt (registerNewUserSt st salt₁ email pass₁).2 salt₂ email pass₂ =
      ((0, some (.wrapped opRegisterNewUser .ErrUserExists)),
       (registerNewUserSt st salt₁ email pass₁).2) ∧
    errorsIs (.wrapped opRegisterNewUser .ErrUserExists) .ErrUserExists = true := by
  have hlt : ¬ pass₁.length > 72 := Nat.not_lt.mpr hlen
  have hlt₂ : ¬ pass₂.length > 72 := Nat.not_lt.mpr hlen₂
  refine ⟨?_, ?_, ?_, by decide⟩
  · simp [registerNewUserSt, GenerateFromPassword, Storage.SaveUser, hlt, hfresh]
  · simp [registerNewUserSt, GenerateFromPassword, Storage.SaveUser, hlt, hfresh]
  · simp [registerNewUserSt, GenerateFromPassword, Storage.SaveUser, hlt, hlt₂, hfresh]

/-- Witness for C5: from the empty store, registering
`alice@example.com` returns id 1, and registering the same email again
fails with the wrapped `ErrUserExists` leaving the state from the first
call untouched. -/
theorem register_duplicate_email_witness :
    (registerNewUserSt emptyStorage 0 "alice@example.com" "s3cret").1 =
      (emptyStorage.nextID, none) ∧
    (registerNewUserSt emptyStorage 0 "alice@example.com" "s3cret").2.users =
      emptyStorage.users ++
        [⟨emptyStorage.nextID, "alice@example.com", .valid DefaultCost 0 "s3cret"⟩] ∧
    registerNewUserSt (registerNewUserSt emptyStorage 0 "alice@example.com" "s3cret").2
        1 "alice@example.com" "other" =
      ((0, some (.wrapped opRegisterNewUser .ErrUserExists)),
       (registerNewUserSt emptyStorage 0 "alice@example.com" "s3cret").2) ∧
    errorsIs (.wrapped opRegisterNewUser .ErrUserExists) .ErrUserExists = true :=
  register_duplicate_email emptyStorage 0 1 "alice@example.com" "s3cret" "other"
    (by decide) (by decide) (by decide)

/-- C6 (code bug): `Auth.IsAdmin` as written panics unconditionally with
"implement me" — it never returns the stored admin flag nor a
`UserNotFound` error, for any user id, contrary to the claim. Evaluated at
the failing input `userID = 1` on the concrete instance. -/
theorem isAdmin_always_panics :
    authEx.IsAdmin 1 = .panicked "implement me" ∧
    ∀ (a : Auth) (userID : Int), a.IsAdmin userID = .panicked "implement me" :=
  ⟨rfl, fun _ _ => rfl⟩

/-- C7 counterexample: the claim says a malformed stored hash is mapped
differently from a password mismatch; in the code both are collapsed. On
concrete inputs, a login against a user whose stored hash is malformed
returns the very same error value as a login with a wrong password against
a well-formed hash — the wrapped `ErrInvalidCredentials`. -/
theorem verify_failures_collapsed_counterexample :
    authMalformed.Login "bob@example.com" "anything" 7 =
      authEx.Login "alice@example.com" "wrong" 7 ∧
    authMalformed.Login "bob@example.com" "anything" 7 =
      .ret "" (some (.wrapped opLogin .ErrInvalidCredentials)) := by
  constructor <;> decide

/-- C7 amended: bcrypt's comparison itself distinguishes the two failures —
a well-formed hash of a different password yields
`ErrMismatchedHashAndPassword` while a malformed stored hash yields the
distinct error `ErrHashTooShort` — but `Login` maps every comparison
failure, of either kind, to the same error kind `ErrInvalidCredentials`:
at the Login boundary the two cases are collapsed. -/
theorem verify_distinguishes_login_collapses :
    (∀ cost salt stored password, stored ≠ password →
      CompareHashAndPassword (.valid cost salt stored) password =
        some .ErrMismatchedHashAndPassword) ∧
    (∀ password, CompareHashAndPassword .malformed password =
        some .ErrHashTooShort) ∧
    GoErr.ErrMismatchedHashAndPassword ≠ GoErr.ErrHashTooShort ∧
    (∀ (a : Auth) (email password : String) (appID : Int) (user : User) (e : GoErr),
      a.usrProvider_User email = .ok user →
      CompareHashAndPassword user.PassHash password = some e →
      a.Login email password appID =
        .ret "" (some (.wrapped opLogin .ErrInvalidCredentials))) := by
  refine ⟨?_, fun _ => rfl, by decide, ?_⟩
  · intro cost salt stored password hne
    simp [CompareHashAndPassword, hne]
  · intro a email password appID user e hu hc
    simp [Auth.Login, hu, hc]

/-- Witness for C7's amended theorem: concrete mismatch and malformed-hash
comparisons return the two distinct bcrypt errors, and the concrete logins
both collapse to `ErrInvalidCredentials`. -/
theorem verify_distinguishes_login_collapses_witness :
    CompareHashAndPassword (.valid DefaultCost 1 "s3cret") "wrong" =
      some .ErrMismatchedHashAndPassword ∧
    CompareHashAndPassword .malformed "anything" = some .ErrHashTooShort ∧
    authEx.Login "alice@example.com" "wrong" 7 =
      .ret "" (some (.wrapped opLogin .ErrInvalidCredentials)) ∧
    authMalformed.Login "bob@example.com" "anything" 7 =
      .ret "" (some (.wrapped opLogin .ErrInvalidCredentials)) :=
  ⟨verify_distinguishes_login_collapses.1 DefaultCost 1 "s3cret" "wrong" (by decide),
   verify_distinguishes_login_collapses.2.1 "anything",
   verify_distinguishes_login_collapses.2.2.2 authEx "alice@example.com" "wrong" 7
     aliceUser .ErrMismatchedHashAndPassword (by rfl) (by decide),
   verify_distinguishes_login_collapses.2.2.2 authMalformed "bob@example.com"
     "anything" 7 bobUser .ErrHashTooShort (by rfl) (by decide)⟩

/-- C3 (code bug): `NewToken` builds the intended claims map — exactly
the keys `uid`, `email`, `exp`, `app_id` with `uid = user.ID`,
`email = user.Email`, `exp = now + duration` in absolute seconds and
`app_id = app.ID` — and `auth.New` does capture the TTL once at
construction into `toketTTL`; but the signing step passes
`[]byte(app.Secret)` to a `SigningMethodES256` token, which the jwt
library's ECDSA signer rejects with `ErrInvalidKeyType`, so for every
input the issuer fails and never returns a token carrying those claims.
Evaluated at the failing input `(aliceUser, app7, duration 3600, now 0)`
and proved for all inputs. -/
theorem newToken_always_fails_invalid_key_type :
    NewToken aliceUser app7 3600 0 = .error .ErrInvalidKeyType ∧
    (∀ (user : User) (app : App) (duration now : Int),
      NewToken user app duration now = .error .ErrInvalidKeyType) ∧
    (∀ (user : User) (app : App) (duration now : Int),
      lookupClaim (newTokenClaims user app duration now) "uid" =
        some (.vInt user.ID) ∧
      lookupClaim (newTokenClaims user app duration now) "email" =
        some (.vStr user.Email) ∧
      lookupClaim (newTokenClaims user app duration now) "app_id" =
        some (.vInt app.ID) ∧
      lookupClaim (newTokenClaims user app duration now) "exp" =
        some (.vInt (now + duration)) ∧
      (newTokenClaims user app duration now).map Prod.fst =
        ["uid", "email", "exp", "app_id"]) ∧
    (∀ us up ia ap ttl, (New us up ia ap ttl).toketTTL = ttl) := by
  refine ⟨rfl, fun _ _ _ _ => rfl, ?_, fun _ _ _ _ _ => rfl⟩
  intro user app duration now
  refine ⟨?_, ?_, ?_, ?_, rfl⟩ <;> simp [lookupClaim, newTokenClaims]

/-- C8: the hashing step is salted and cost-bound: two hashing runs on the
identical password with distinct salts produce distinct hashes, and the
registration flow always hashes with the named constant
`bcrypt.DefaultCost` regardless of the input — the record stored for a
fresh email carries cost exactly `DefaultCost`. -/
theorem hash_salted_constant_cost :
    (∀ (password : String) (salt₁ salt₂ : Nat), password.length ≤ 72 →
      salt₁ ≠ salt₂ →
      GenerateFromPassword password DefaultCost salt₁ ≠
        GenerateFromPassword password DefaultCost salt₂) ∧
    (∀ (st : Storage) (salt : Nat) (email pass : String),
      st.users.any (fun u => u.Email = email) = false → pass.length ≤ 72 →
      (registerNewUserSt st salt email pass).2.users =
        st.users ++ [⟨st.nextID, email, .valid DefaultCost salt pass⟩]) := by
  constructor
  · intro password salt₁ salt₂ hlen hne
    have hlt : ¬ password.length > 72 := Nat.not_lt.mpr hlen
    simp [GenerateFromPassword, hlt]
    exact fun h => hne h
  · intro st salt email pass hfresh hlen
    have hlt : ¬ pass.length > 72 := Nat.not_lt.mpr hlen
    simp [registerNewUserSt, GenerateFromPassword, Storage.SaveUser, hlt, hfresh]

/-- Witness for C8: hashing `"s3cret"` with salts 0 and 1 gives different
hashes, and registering it from the empty store stores a hash with cost
`DefaultCost`. -/
theorem hash_salted_constant_cost_witness :
    GenerateFromPassword "s3cret" DefaultCost 0 ≠
      GenerateFromPassword "s3cret" DefaultCost 1 ∧
    (registerNewUserSt emptyStorage 0 "alice@example.com" "s3cret").2.users =
      emptyStorage.users ++
        [⟨emptyStorage.nextID, "alice@example.com", .valid DefaultCost 0 "s3cret"⟩] :=
  ⟨hash_salted_constant_cost.1 "s3cret" 0 1 (by decide) (by decide),
   hash_salted_constant_cost.2 emptyStorage 0 "alice@example.com" "s3cret"
     (by decide) (by decide)⟩

/-- C9: every error returned by `Login` is wrapped with the operation name
`auth.Login` and every error returned by `RegisterNewUser` is wrapped with
`auth.RegisterNewUser`; the wrapping preserves `errors.Is`, so any store
sentinel kind (not-found, duplicate) carried by the inner error — as in
the app-lookup and save-user paths, which propagate the store error as-is —
remains distinguishable by structural error-kind inspection through the
wrapping. -/
theorem errors_wrapped_with_op :
    (∀ (a : Auth) (email password : String) (appID : Int) (t : String) (e : GoErr),
      a.Login email password appID = .ret t (some e) →
      ∃ e₀, e = .wrapped opLogin e₀) ∧
    (∀ (a : Auth) (salt : Nat) (email pass : String) (e : GoErr),
      (a.RegisterNewUser salt email pass).2 = some e →
      ∃ e₀, e = .wrapped opRegisterNewUser e₀) ∧
    (∀ (op : String) (e s : GoErr), errorsIs e s = true →
      errorsIs (.wrapped op e) s = true) := by
  refine ⟨?_, ?_, ?_⟩
  · intro a email password appID t e h
    unfold Auth.Login at h
    cases hu : a.usrProvider_User email with
    | error err =>
        rw [hu] at h
        by_cases hnf : errorsIs err .ErrUserNotFound = true
        · simp [hnf] at h
          exact ⟨.ErrInvalidCredentials, h.2.symm⟩
        · simp [hnf] at h
          exact ⟨err, h.2.symm⟩
    | ok user =>
        rw [hu] at h
        cases hc : CompareHashAndPassword user.PassHash password with
        | some cerr =>
            simp [hc] at h
            exact ⟨.ErrInvalidCredentials, h.2.symm⟩
        | none =>
            simp [hc] at h
            cases ha : a.appProvider_App appID with
            | error aerr =>
                simp [ha] at h
                exact ⟨aerr, h.2.symm⟩
            | ok app =>
                simp [ha] at h
  · intro a salt email pass e h
    unfold Auth.RegisterNewUser at h
    cases hg : GenerateFromPassword pass DefaultCost salt with
    | error gerr =>
        rw [hg] at h
        simp at h
        exact ⟨gerr, h.symm⟩
    | ok passHash =>
        rw [hg] at h
        cases hs : a.usrSaver_SaveUser email passHash with
        | error serr =>
            simp [hs] at h
            exact ⟨serr, h.symm⟩
        | ok id =>
            simp [hs] at h
  · intro op e s h
    unfold errorsIs
    split
    · rfl
    · exact h

/-- Witness for C9: the concrete app-not-found login error and duplicate
registration error are wrapped with their operation names, and the
duplicate sentinel stays detectable through the wrap. -/
theorem errors_wrapped_with_op_witness :
    (∃ e₀, GoErr.wrapped opLogin .ErrAppNotFound = .wrapped opLogin e₀) ∧
    (∃ e₀, GoErr.wrapped opRegisterNewUser .ErrUserExists =
      .wrapped opRegisterNewUser e₀) ∧
    errorsIs (.wrapped opRegisterNewUser .ErrUserExists) .ErrUserExists = true :=
  ⟨errors_wrapped_with_op.1 authEx "alice@example.com" "s3cret" 9 ""
      (.wrapped opLogin .ErrAppNotFound) (by rfl),
   errors_wrapped_with_op.2.1 authDup 0 "dave@example.com" "p4ss"
      (.wrapped opRegisterNewUser .ErrUserExists) (by rfl),
   errors_wrapped_with_op.2.2 opRegisterNewUser .ErrUserExists .ErrUserExists
      (by decide)⟩

/-- C10: on every error path, `Login` returns the empty string as the
token value and `RegisterNewUser` returns 0 as the user id; neither
operation ever returns a non-empty/non-zero success value together with a
non-nil error. -/
theorem zero_values_on_error :
    (∀ (a : Auth) (email password : String) (appID : Int) (t : String) (e : GoErr),
      a.Login email password appID = .ret t (some e) → t = "") ∧
    (∀ (a : Auth) (salt : Nat) (email pass : String) (e : GoErr),
      (a.RegisterNewUser salt email pass).2 = some e →
      (a.RegisterNewUser salt email pass).1 = 0) := by
  constructor
  · intro a email password appID t e h
    unfold Auth.Login at h
    cases hu : a.usrProvider_User email with
    | error err =>
        rw [hu] at h
        by_cases hnf : errorsIs err .ErrUserNotFound = true
        · simp [hnf] at h
          exact h.1.symm
        · simp [hnf] at h
          exact h.1.symm
    | ok user =>
        rw [hu] at h
        cases hc : CompareHashAndPassword user.PassHash password with
        | some cerr =>
            simp [hc] at h
            exact h.1.symm
        | none =>
            simp [hc] at h
            cases ha : a.appProvider_App appID with
            | error aerr =>
                simp [ha] at h
                exact h.1.symm
            | ok app =>
                simp [ha] at h
  · intro a salt email pass e h
    unfold Auth.RegisterNewUser at h
    unfold Auth.RegisterNewUser
    cases hg : GenerateFromPassword pass DefaultCost salt with
    | error gerr => rfl
    | ok passHash =>
        rw [hg] at h
        cases hs : a.usrSaver_SaveUser email passHash with
        | error serr => simp [hs]
        | ok id => simp [hs] at h

/-- Witness for C10: the concrete failing login returns token `""` and
the concrete failing registration returns id `0`. -/
theorem zero_values_on_error_witness :
    ("" : String) = "" ∧ (authDup.RegisterNewUser 0 "dave@example.com" "p4ss").1 = 0 :=
  ⟨zero_values_on_error.1 authEx "carol@example.com" "anything" 7 ""
      (.wrapped opLogin .ErrInvalidCredentials) (by rfl),
   zero_values_on_error.2 authDup 0 "dave@example.com" "p4ss"
      (.wrapped opRegisterNewUser .ErrUserExists) (by rfl)⟩

end SSO
